import Mathlib

/-!
Verification of the personal finance manager (financial_budget.py).

Shallow embedding: Python floats are modelled as rationals, `datetime.now()`
as an explicit natural-number clock argument, raised `ValueError`s as
`Except String` results, and the interactive stdin stream as a list of
input tokens carrying both the raw text and the result of `float()` parsing.
-/

namespace FinancialBudget

/-- One recorded expense, as built by `Transaction.__init__`: a description,
an amount, and the creation timestamp (the ambient `datetime.now()` call is
modelled as an explicit clock value supplied by the caller). -/
structure Transaction where
  description : String
  amount : ℚ
  timestamp : Nat
  deriving Repr, DecidableEq

/-- Budget state: the fixed limit `_amount` and the running `_spent` total. -/
structure Budget where
  amount : ℚ
  spent : ℚ
  deriving Repr, DecidableEq

/-- `Budget.__init__`: rejects a negative limit with `ValueError`, otherwise
starts with `_spent = 0`. -/
def Budget.init (amount : ℚ) : Except String Budget :=
  if amount < 0 then .error "Budget cannot be negative"
  else .ok { amount := amount, spent := 0 }

/-- The `total_budget` property: `return self._amount`. -/
def Budget.total_budget (b : Budget) : ℚ := b.amount

/-- The `total_spent` property: `return self._spent`. -/
def Budget.total_spent (b : Budget) : ℚ := b.spent

/-- The `remaining` property: `return self._amount - self._spent`. -/
def Budget.remaining (b : Budget) : ℚ := b.amount - b.spent

/-- The `is_exceeded` property: `return self._spent > self._amount`. -/
def Budget.is_exceeded (b : Budget) : Bool := b.spent > b.amount

/-- The `deficit` property:
`return self._spent - self._amount if self.is_exceeded else 0`. -/
def Budget.deficit (b : Budget) : ℚ :=
  if b.is_exceeded then b.spent - b.amount else 0

/-- `Budget.add_expense`: rejects a negative amount with `ValueError`,
otherwise adds it to `_spent`; on success the new state is returned. -/
def Budget.add_expense (b : Budget) (amount : ℚ) : Except String Budget :=
  if amount < 0 then .error "Expense amount cannot be negative"
  else .ok { b with spent := b.spent + amount }

/-- The transaction log: the internal `_transactions` list. -/
structure TransactionLog where
  transactions : List Transaction
  deriving Repr, DecidableEq

/-- `TransactionLog.__init__`: the internal list starts empty. -/
def TransactionLog.init : TransactionLog := { transactions := [] }

/-- `TransactionLog.add_transaction`: builds `Transaction(description, amount)`
with the current clock as its timestamp, appends it to the internal list and
returns it alongside the updated log. No validation is performed. -/
def TransactionLog.add_transaction (log : TransactionLog) (description : String)
    (amount : ℚ) (clock : Nat) : TransactionLog × Transaction :=
  let t : Transaction := { description := description, amount := amount, timestamp := clock }
  ({ transactions := log.transactions ++ [t] }, t)

/-- The `count` property: `return len(self._transactions)`. -/
def TransactionLog.count (log : TransactionLog) : Nat := log.transactions.length

/-- `TransactionLog.get_total`: `return sum(t.amount for t in self._transactions)`. -/
def TransactionLog.get_total (log : TransactionLog) : ℚ :=
  (log.transactions.map Transaction.amount).sum

/-- Folding a list of expenses into a budget by repeated `add_expense`,
stopping at the first error. Used to state properties of recording a whole
sequence of amounts. -/
def Budget.record_list (b : Budget) : List ℚ → Except String Budget
  | [] => .ok b
  | a :: rest =>
    match b.add_expense a with
    | .ok b2 => b2.record_list rest
    | .error e => .error e

/-- One line of interactive input, as returned by `input()`: the raw text,
together with the result of Python's `float()` on it (`none` when `float()`
would raise `ValueError` on non-numeric text). Description prompts use the
raw text; numeric prompts use the parsed value. -/
structure Inp where
  raw : String
  parsed : Option ℚ
  deriving Repr, DecidableEq

/-- An input token the numeric prompts reject: non-numeric text, or a value
that the subsequent validation (negative check) refuses. -/
def Inp.numInvalid (t : Inp) : Bool :=
  match t.parsed with
  | none => true
  | some q => q < 0

namespace FinanceManager

/-- `FinanceManager.get_budget`: reads lines until `float()` succeeds and
`Budget(amount)` constructs without error; each failure is caught and the
prompt repeats. Returns the budget together with the unconsumed input.
`none` means the stream ran out while the prompt was still retrying
(the real loop would block or retry forever). -/
def get_budget : List Inp → Option (Budget × List Inp)
  | [] => none
  | tok :: rest =>
    match tok.parsed with
    | none => get_budget rest
    | some q =>
      match Budget.init q with
      | .ok b => some (b, rest)
      | .error _ => get_budget rest

/-- The retry loop inside `FinanceManager.get_transaction`, after the
description has been read: reads amount lines until `float()` succeeds and
`budget.add_expense` does not raise. Mirrors the source faithfully:
`transaction_log.add_transaction` is called before `budget.add_expense`, so
when `add_expense` raises on a negative amount the already-appended
transaction stays in the log carried into the retry. -/
def get_transaction (description : String) (clock : Nat) :
    Budget → TransactionLog → List Inp →
    Option (Budget × TransactionLog × Transaction × List Inp)
  | _, _, [] => none
  | b, log, tok :: rest =>
    match tok.parsed with
    | none => get_transaction description clock b log rest
    | some q =>
      let p := log.add_transaction description q clock
      match b.add_expense q with
      | .ok b2 => some (b2, p.1, p.2, rest)
      | .error _ => get_transaction description clock b p.1 rest

/-- The `for i in range(5)` body of `FinanceManager.run`: each iteration
reads a description line, then runs the amount retry loop. `none` when the
input stream is exhausted before all iterations complete. -/
def session_loop : Nat → Nat → Budget → TransactionLog → List Inp →
    Option (Budget × TransactionLog × List Inp)
  | 0, _, b, log, s => some (b, log, s)
  | n + 1, clock, b, log, s =>
    match s with
    | [] => none
    | d :: rest =>
      match get_transaction d.raw clock b log rest with
      | none => none
      | some (b2, log2, _, rest2) => session_loop n (clock + 1) b2 log2 rest2

/-- `FinanceManager.run`: obtain a budget, then record five transactions
starting from the empty log created in `__init__`; the final state is what
`print_summary` renders. -/
def run (clock : Nat) (s : List Inp) : Option (Budget × TransactionLog) :=
  match get_budget s with
  | none => none
  | some (b, rest) =>
    match session_loop 5 clock b TransactionLog.init rest with
    | none => none
    | some (b2, log2, _) => some (b2, log2)

end FinanceManager

/-- Recording a list of non-negative amounts never errors and accumulates the
sum into `_spent` while leaving the limit untouched. -/
theorem Budget.record_list_ok (l : List ℚ) : ∀ b : Budget, (∀ a ∈ l, 0 ≤ a) →
    b.record_list l = .ok ⟨b.amount, b.spent + l.sum⟩ := by
  induction l with
  | nil => intro b _; simp [Budget.record_list]
  | cons a rest ih =>
    intro b h
    have ha : 0 ≤ a := h a (by simp)
    have hstep : b.add_expense a = .ok ⟨b.amount, b.spent + a⟩ := by
      simp [Budget.add_expense, not_lt.mpr ha]
    have htail := ih ⟨b.amount, b.spent + a⟩ (fun x hx => h x (by simp [hx]))
    simp only [Budget.record_list, hstep, htail, List.sum_cons]
    ring_nf

/-- C3: for every non-negative limit L and every list of non-negative amounts
recorded into Budget(L), TotalSpent is the sum of the amounts, Remaining is
L minus that sum, IsExceeded holds exactly when the sum exceeds L, and
Deficit is max(sum - L, 0); immediately after construction TotalSpent is 0
and Remaining is L. -/
theorem C3_budget_arithmetic (L : ℚ) (l : List ℚ)
    (hL : 0 ≤ L) (hl : ∀ a ∈ l, 0 ≤ a) :
    ∃ b0 b : Budget,
      Budget.init L = .ok b0 ∧
      b0.total_spent = 0 ∧
      b0.remaining = L ∧
      b0.record_list l = .ok b ∧
      b.total_spent = l.sum ∧
      b.remaining = L - l.sum ∧
      (b.is_exceeded = true ↔ l.sum > L) ∧
      b.deficit = max (l.sum - L) 0 := by
  refine ⟨⟨L, 0⟩, ⟨L, l.sum⟩, ?_, rfl, ?_, ?_, rfl, rfl, ?_, ?_⟩
  · simp [Budget.init, not_lt.mpr hL]
  · simp [Budget.remaining]
  · have := Budget.record_list_ok l ⟨L, 0⟩ hl
    simpa using this
  · simp [Budget.is_exceeded]
  · by_cases hx : l.sum > L
    · simp [Budget.deficit, Budget.is_exceeded, hx, max_eq_left (by linarith : (0:ℚ) ≤ l.sum - L)]
    · simp [Budget.deficit, Budget.is_exceeded, hx, max_eq_right (by linarith : l.sum - L ≤ (0:ℚ))]

/-- Witness for C3 at the spec scenario Budget(100) with records 30, 40, 50:
total spent 120, exceeded, deficit 20. -/
theorem C3_budget_arithmetic_witness :
    ∃ b0 b : Budget,
      Budget.init 100 = .ok b0 ∧
      b0.total_spent = 0 ∧
      b0.remaining = 100 ∧
      b0.record_list [30, 40, 50] = .ok b ∧
      b.total_spent = List.sum ([30, 40, 50] : List ℚ) ∧
      b.remaining = 100 - List.sum ([30, 40, 50] : List ℚ) ∧
      (b.is_exceeded = true ↔ List.sum ([30, 40, 50] : List ℚ) > 100) ∧
      b.deficit = max (List.sum ([30, 40, 50] : List ℚ) - 100) 0 :=
  C3_budget_arithmetic 100 [30, 40, 50] (by norm_num) (by decide)

/-- C5: constructing a Budget with a negative limit raises; add_expense on a
negative amount raises (in this pure embedding the erring call returns no new
state, so the caller keeps the unchanged budget); add_expense on a
non-negative amount always succeeds and adds the amount to spent, with no
upper-bound check against the limit. -/
theorem C5_validation (L a : ℚ) (b : Budget) :
    (L < 0 → Budget.init L = .error "Budget cannot be negative") ∧
    (a < 0 → b.add_expense a = .error "Expense amount cannot be negative") ∧
    (0 ≤ a → b.add_expense a = .ok { b with spent := b.spent + a }) := by
  refine ⟨fun hL => ?_, fun ha => ?_, fun ha => ?_⟩
  · simp [Budget.init, hL]
  · simp [Budget.add_expense, ha]
  · simp [Budget.add_expense, not_lt.mpr ha]

/-- Witness for C5: Budget(-1) errors; on a budget with limit 5 and nothing
spent, add_expense(-2) errors and add_expense(10) succeeds even though 10
exceeds the limit. -/
theorem C5_validation_witness :
    Budget.init (-1) = .error "Budget cannot be negative" ∧
    Budget.add_expense ⟨5, 0⟩ (-2) = .error "Expense amount cannot be negative" ∧
    Budget.add_expense ⟨5, 0⟩ 10 = .ok ⟨5, 10⟩ := by
  refine ⟨(C5_validation (-1) (-2) ⟨5, 0⟩).1 (by norm_num),
          (C5_validation (-1) (-2) ⟨5, 0⟩).2.1 (by norm_num), ?_⟩
  have h := (C5_validation (-1) 10 ⟨5, 0⟩).2.2 (by norm_num)
  simpa using h

/-- C10: adding a zero expense succeeds and returns a budget state equal to
the original, so every observable (total_budget, total_spent, remaining,
is_exceeded, deficit) is unchanged. -/
theorem C10_add_expense_zero (b : Budget) : b.add_expense 0 = .ok b := by
  cases b with
  | mk amount spent => simp [Budget.add_expense]

/-- Counterexample for C2: add_transaction with the negative amount -7 does
not fail; it appends a transaction carrying -7 to the previously empty log. -/
theorem C2_add_transaction_no_failure :
    ((TransactionLog.init.add_transaction "snack" (-7) 0).1.transactions =
      [⟨"snack", -7, 0⟩] ∧
     (TransactionLog.init.add_transaction "snack" (-7) 0).1.count = 1) := by
  constructor <;> rfl

/-- C2 as amended: add_transaction performs no validation at all; for every
description and every amount, negative included, it constructs the
transaction, appends it to the log, returns it, and the log total grows by
exactly that amount. -/
theorem C2_add_transaction_total (log : TransactionLog) (d : String) (a : ℚ)
    (c : Nat) :
    (log.add_transaction d a c).1.transactions =
      log.transactions ++ [(log.add_transaction d a c).2] ∧
    (log.add_transaction d a c).2 = ⟨d, a, c⟩ ∧
    (log.add_transaction d a c).1.get_total = log.get_total + a := by
  refine ⟨rfl, rfl, ?_⟩
  simp [TransactionLog.add_transaction, TransactionLog.get_total]

/-- C9: add_transaction always succeeds, increases the count by exactly one,
and the returned transaction is the last element of the iteration sequence
and carries exactly the given description and amount. -/
theorem C9_add_transaction_appends (log : TransactionLog) (d : String) (a : ℚ)
    (c : Nat) :
    (log.add_transaction d a c).1.count = log.count + 1 ∧
    (log.add_transaction d a c).1.transactions.getLast? =
      some (log.add_transaction d a c).2 ∧
    (log.add_transaction d a c).2.description = d ∧
    (log.add_transaction d a c).2.amount = a := by
  refine ⟨?_, ?_, rfl, rfl⟩
  · simp [TransactionLog.add_transaction, TransactionLog.count]
  · simp [TransactionLog.add_transaction]

/-- C1 evidence: in get_transaction the source calls
transaction_log.add_transaction before budget.add_expense, so entering -5
(appended to the log, then rejected by the budget) and retrying with 10
leaves the log total at 5 while the budget spent total is 10: the
coordination invariant TransactionLog.Total = Budget.TotalSpent is broken
after the call returns. -/
theorem C1_coordination_broken :
    ∃ (b2 : Budget) (log2 : TransactionLog) (t : Transaction),
      FinanceManager.get_transaction "snacks" 0 ⟨100, 0⟩ TransactionLog.init
          [⟨"-5", some (-5)⟩, ⟨"10", some 10⟩] = some (b2, log2, t, []) ∧
        log2.get_total = 5 ∧ b2.total_spent = 10 ∧
        log2.get_total ≠ b2.total_spent := by
  refine ⟨⟨100, 10⟩, ⟨[⟨"snacks", -5, 0⟩, ⟨"snacks", 10, 0⟩]⟩,
    ⟨"snacks", 10, 0⟩, ?_, ?_, ?_, ?_⟩
  · norm_num [FinanceManager.get_transaction, Budget.add_expense,
      TransactionLog.add_transaction, TransactionLog.init]
  · norm_num [TransactionLog.get_total]
  · rfl
  · norm_num [TransactionLog.get_total, Budget.total_spent]

/-- C4 evidence: a complete session whose first expense prompt sees a
rejected -5 before the accepted 5 ends with 6 transactions in the log, not
the 5 the claim states, because the rejected amount was still appended. -/
theorem C4_run_count_divergence :
    (FinanceManager.run 0
        [⟨"100", some 100⟩,
         ⟨"food", none⟩, ⟨"-5", some (-5)⟩, ⟨"5", some 5⟩,
         ⟨"a", none⟩, ⟨"1", some 1⟩,
         ⟨"b", none⟩, ⟨"2", some 2⟩,
         ⟨"c", none⟩, ⟨"3", some 3⟩,
         ⟨"d", none⟩, ⟨"4", some 4⟩]).map (fun p => p.2.count) = some 6 ∧
    (FinanceManager.run 0
        [⟨"100", some 100⟩,
         ⟨"food", none⟩, ⟨"-5", some (-5)⟩, ⟨"5", some 5⟩,
         ⟨"a", none⟩, ⟨"1", some 1⟩,
         ⟨"b", none⟩, ⟨"2", some 2⟩,
         ⟨"c", none⟩, ⟨"3", some 3⟩,
         ⟨"d", none⟩, ⟨"4", some 4⟩]).map (fun p => p.2.count) ≠ some 5 := by
  have h : (FinanceManager.run 0
        [⟨"100", some 100⟩,
         ⟨"food", none⟩, ⟨"-5", some (-5)⟩, ⟨"5", some 5⟩,
         ⟨"a", none⟩, ⟨"1", some 1⟩,
         ⟨"b", none⟩, ⟨"2", some 2⟩,
         ⟨"c", none⟩, ⟨"3", some 3⟩,
         ⟨"d", none⟩, ⟨"4", some 4⟩]).map (fun p => p.2.count) = some 6 := by
    norm_num [FinanceManager.run, FinanceManager.get_budget,
      FinanceManager.session_loop, FinanceManager.get_transaction,
      Budget.init, Budget.add_expense, TransactionLog.add_transaction,
      TransactionLog.init, TransactionLog.count]
  exact ⟨h, by rw [h]; decide⟩

/-- Model of Python list reference semantics, needed to state the aliasing
behaviour of the transactions property: a store holds list cells and a
reference is an index into the store. -/
structure PyListStore where
  cells : List (List Transaction)
  deriving Repr, DecidableEq

/-- Dereference a list reference. -/
def PyListStore.read (s : PyListStore) (r : Nat) : List Transaction :=
  s.cells.getD r []

/-- Overwrite the cell a reference points to. -/
def PyListStore.write (s : PyListStore) (r : Nat) (v : List Transaction) :
    PyListStore :=
  ⟨s.cells.set r v⟩

/-- In-place `list.append` through a reference, as Python client code can do
to any list object it is handed. -/
def PyListStore.push (s : PyListStore) (r : Nat) (t : Transaction) :
    PyListStore :=
  s.write r (s.read r ++ [t])

/-- The transactions property as written in the source: `return
self._transactions` hands back the internal list reference itself, not a
copy. -/
def transactions_property (r : Nat) : Nat := r

/-- What a defensive copy would return instead: a fresh cell holding the
same elements. -/
def transactions_copy (s : PyListStore) (r : Nat) : PyListStore × Nat :=
  (⟨s.cells ++ [s.read r]⟩, s.cells.length)

/-- The log's count as seen through the store. -/
def log_count_in (s : PyListStore) (r : Nat) : Nat := (s.read r).length

/-- C6 evidence: take a store with one log whose internal list (cell 0) is
empty. Appending through the reference returned by the transactions
property changes the log's count from 0 to 1, while appending through a
defensive copy would have left it at 0: the accessor exposes the internal
mutable sequence itself. -/
theorem C6_transactions_alias :
    log_count_in (PyListStore.push ⟨[[]]⟩ (transactions_property 0)
        ⟨"x", 1, 0⟩) 0 = 1 ∧
    log_count_in (PyListStore.mk [[]]) 0 = 0 ∧
    (let p := transactions_copy ⟨[[]]⟩ 0
     log_count_in (PyListStore.push p.1 p.2 ⟨"x", 1, 0⟩) 0 = 0) := by
  refine ⟨?_, ?_, ?_⟩ <;> decide

/-- A prefix of rejected inputs is skipped by the budget prompt: each is
caught and the prompt retries on the rest of the stream. -/
theorem FinanceManager.get_budget_skip (pre : List Inp)
    (h : ∀ t ∈ pre, t.numInvalid = true) (s : List Inp) :
    FinanceManager.get_budget (pre ++ s) = FinanceManager.get_budget s := by
  induction pre with
  | nil => rfl
  | cons t rest ih =>
    have ht : t.numInvalid = true := h t (by simp)
    have hrest := ih (fun x hx => h x (by simp [hx]))
    cases hp : t.parsed with
    | none => simpa [FinanceManager.get_budget, hp] using hrest
    | some q =>
      have hq : q < 0 := by simpa [Inp.numInvalid, hp] using ht
      simpa [FinanceManager.get_budget, hp, Budget.init, hq] using hrest

/-- A prefix of rejected inputs is skipped by the amount prompt: the budget
is untouched, control returns to the prompt, and only the log may have
grown (the source appends before the budget validation). -/
theorem FinanceManager.get_transaction_skip (d : String) (c : Nat)
    (pre : List Inp) (h : ∀ t ∈ pre, t.numInvalid = true) :
    ∀ (b : Budget) (log : TransactionLog) (s : List Inp),
      ∃ log2, FinanceManager.get_transaction d c b log (pre ++ s) =
        FinanceManager.get_transaction d c b log2 s := by
  induction pre with
  | nil => exact fun b log s => ⟨log, rfl⟩
  | cons t rest ih =>
    intro b log s
    have ht : t.numInvalid = true := h t (by simp)
    have hrest := ih (fun x hx => h x (by simp [hx]))
    cases hp : t.parsed with
    | none =>
      obtain ⟨log2, h2⟩ := hrest b log s
      exact ⟨log2, by simpa [FinanceManager.get_transaction, hp] using h2⟩
    | some q =>
      have hq : q < 0 := by simpa [Inp.numInvalid, hp] using ht
      obtain ⟨log2, h2⟩ := hrest b (log.add_transaction d q c).1 s
      refine ⟨log2, ?_⟩
      simpa [FinanceManager.get_transaction, hp, Budget.add_expense, hq] using h2

/-- C7: at both numeric prompts, any finite prefix of malformed or negative
inputs is caught locally and the prompt retried, and the operation returns
as soon as the stream yields a valid (parseable, non-negative) value: the
budget prompt returns the budget built from the first valid value, and the
amount prompt returns with exactly that amount added to the budget's spent
total, in both cases consuming the stream exactly through the accepted
token. -/
theorem C7_prompt_retry
    (pre : List Inp) (tok : Inp) (post : List Inp) (q : ℚ)
    (d : String) (c : Nat) (b : Budget) (log : TransactionLog)
    (pre2 : List Inp) (tok2 : Inp) (post2 : List Inp) (a : ℚ)
    (hpre : ∀ t ∈ pre, t.numInvalid = true)
    (htok : tok.parsed = some q) (hq : 0 ≤ q)
    (hpre2 : ∀ t ∈ pre2, t.numInvalid = true)
    (htok2 : tok2.parsed = some a) (ha : 0 ≤ a) :
    FinanceManager.get_budget (pre ++ tok :: post) = some (⟨q, 0⟩, post) ∧
    ∃ (log2 : TransactionLog) (t : Transaction),
      FinanceManager.get_transaction d c b log (pre2 ++ tok2 :: post2) =
        some ({ b with spent := b.spent + a }, log2, t, post2) := by
  constructor
  · rw [FinanceManager.get_budget_skip pre hpre]
    simp [FinanceManager.get_budget, htok, Budget.init, not_lt.mpr hq]
  · obtain ⟨log2, h2⟩ :=
      FinanceManager.get_transaction_skip d c pre2 hpre2 b log (tok2 :: post2)
    refine ⟨(log2.add_transaction d a c).1, (log2.add_transaction d a c).2, ?_⟩
    rw [h2]
    simp [FinanceManager.get_transaction, htok2, Budget.add_expense,
      not_lt.mpr ha]

/-- Witness for C7: the budget prompt skips non-numeric "abc" and negative
-3 and accepts 50; the amount prompt on a budget with limit 9 and 1 spent
skips non-numeric "oops" and accepts 4. -/
theorem C7_prompt_retry_witness :
    FinanceManager.get_budget
        [⟨"abc", none⟩, ⟨"-3", some (-3)⟩, ⟨"50", some 50⟩, ⟨"z", none⟩] =
      some (⟨50, 0⟩, [⟨"z", none⟩]) ∧
    ∃ (log2 : TransactionLog) (t : Transaction),
      FinanceManager.get_transaction "w" 0 ⟨9, 1⟩ TransactionLog.init
          [⟨"oops", none⟩, ⟨"4", some 4⟩] =
        some (⟨9, 1 + 4⟩, log2, t, []) :=
  C7_prompt_retry
    [⟨"abc", none⟩, ⟨"-3", some (-3)⟩] ⟨"50", some 50⟩ [⟨"z", none⟩] 50
    "w" 0 ⟨9, 1⟩ TransactionLog.init
    [⟨"oops", none⟩] ⟨"4", some 4⟩ [] 4
    (by decide) rfl (by decide) (by decide) rfl (by decide)

/-- The total_budget property transcribed as a state transformer (returned
value, post-state): the body only reads `self._amount`. -/
def Budget.total_budget_m (b : Budget) : ℚ × Budget := (b.amount, b)

/-- The total_spent property transcribed as a state transformer: the body
only reads `self._spent`. -/
def Budget.total_spent_m (b : Budget) : ℚ × Budget := (b.spent, b)

/-- The remaining property transcribed as a state transformer: the body
computes `self._amount - self._spent`. -/
def Budget.remaining_m (b : Budget) : ℚ × Budget := (b.amount - b.spent, b)

/-- The is_exceeded property transcribed as a state transformer: the body
computes `self._spent > self._amount`. -/
def Budget.is_exceeded_m (b : Budget) : Bool × Budget := (b.spent > b.amount, b)

/-- The deficit property transcribed as a state transformer: the body calls
the is_exceeded property and then reads the two fields. -/
def Budget.deficit_m (b : Budget) : ℚ × Budget :=
  let p := b.is_exceeded_m
  (if p.1 then p.2.spent - p.2.amount else 0, p.2)

/-- The count property transcribed as a state transformer: the body computes
`len(self._transactions)`. -/
def TransactionLog.count_m (log : TransactionLog) : Nat × TransactionLog :=
  (log.transactions.length, log)

/-- get_total transcribed as a state transformer: the body sums the amounts
of `self._transactions`. -/
def TransactionLog.get_total_m (log : TransactionLog) : ℚ × TransactionLog :=
  ((log.transactions.map Transaction.amount).sum, log)

/-- C8: every query, read as a state transformer, leaves the state exactly
as it was, agrees with the pure query function, and a repeated call on the
resulting state returns the same value (idempotence of get_total under
repeated calls included). -/
theorem C8_queries_pure (b : Budget) (log : TransactionLog) :
    (b.total_budget_m.2 = b ∧ b.total_budget_m.1 = b.total_budget) ∧
    (b.total_spent_m.2 = b ∧ b.total_spent_m.1 = b.total_spent) ∧
    (b.remaining_m.2 = b ∧ b.remaining_m.1 = b.remaining) ∧
    (b.is_exceeded_m.2 = b ∧ b.is_exceeded_m.1 = b.is_exceeded) ∧
    (b.deficit_m.2 = b ∧ b.deficit_m.1 = b.deficit) ∧
    (log.count_m.2 = log ∧ log.count_m.1 = log.count) ∧
    (log.get_total_m.2 = log ∧ log.get_total_m.1 = log.get_total) ∧
    log.get_total_m.2.get_total_m.1 = log.get_total_m.1 ∧
    b.total_spent_m.2.total_spent_m.1 = b.total_spent_m.1 :=
  ⟨⟨rfl, rfl⟩, ⟨rfl, rfl⟩, ⟨rfl, rfl⟩, ⟨rfl, rfl⟩, ⟨rfl, rfl⟩,
   ⟨rfl, rfl⟩, ⟨rfl, rfl⟩, rfl, rfl⟩

end FinancialBudget
